import Mathlib

/-!
Shallow embedding of the valtri café-ordering backend (src/index.js and the
variant files under src/unnamed) together with proofs about the order
lifecycle, the geofence admission guard and the analytics aggregation.

Modelling conventions:
* Request-body fields that may be absent, null or otherwise JS-falsy are
  modelled as `Option`; `none` stands for a missing / empty / non-numeric
  value.  A supplied numeric zero is `some 0` (JS treats it as falsy where
  the code uses `!x`, and the embedding reproduces that branch explicitly).
* The database is modelled as the data the handler reads: `tableOk` is the
  outcome of the table lookup, `catalog` the list of menu-item ids (primary
  keys, one row per id) and the order row is passed in as `Option Order`.
  Store-level failures (network errors, 500s) are outside the embedding.
* Monetary amounts and coordinates handled by control flow are rationals;
  the haversine computation itself, which the source performs with
  transcendental floating point functions, is embedded over the reals.
-/

namespace Valtri

/-- An HTTP error response: status code plus the message of the source's
`res.status(...).json({error: ...})` call. -/
structure ErrResp where
  status : Nat
  msg : String
deriving DecidableEq, Repr

/-- A raw line item as sent by the client in `items`.  Every field may be
missing; `none` models a JS-falsy value (absent, null, empty string, or a
non-numeric string for the numeric fields). -/
structure InputItem where
  item_id : Option String
  name : Option String
  price : Option ℚ
  quantity : Option ℤ
  category : Option String
  note : Option String
deriving DecidableEq, Repr

/-- A normalized line item as persisted by the handlers' `validItems` map. -/
structure OrderLine where
  item_id : String
  name : String
  price : ℚ
  quantity : ℤ
  category : String
  note : String
deriving DecidableEq, Repr

/-- The two order states of the lifecycle. -/
inductive OrderStatus where
  | pending
  | paid
deriving DecidableEq, Repr

/-- An order row as the lifecycle handlers see it. -/
structure Order where
  table_id : String
  items : List OrderLine
  status : OrderStatus
  notes : Option String
  payment_type : Option String
deriving DecidableEq, Repr

/-- `validItems` normalization (src/index.js:759-766 and 824-831):
`name: item.name || 'Unknown'`, `price: parseFloat(item.price) || 0`,
`quantity: parseInt(item.quantity) || 1`, `category: item.category || ''`,
`note: item.note || ''`.  A present zero price stays 0 (`0 || 0`), a present
zero quantity becomes 1 (`0 || 1`); negative supplied values pass through. -/
def normalizeItem (it : InputItem) : OrderLine :=
  { item_id := it.item_id.getD ""
    name := it.name.getD "Unknown"
    price := it.price.getD 0
    quantity := match it.quantity with
      | none => 1
      | some q => if q = 0 then 1 else q
    category := it.category.getD ""
    note := it.note.getD "" }

/-- Item validation shared by `POST /api/orders` (src/index.js:744-757) and
`PATCH /api/orders/:id` (src/index.js:809-822):
`itemIds = items.map(i => i.item_id).filter(id => id)`; reject when some id
is falsy (`itemIds.length !== items.length`), then query the catalog with
`.in('id', itemIds)` and reject when the number of resolved catalog rows
differs from `itemIds.length`.  `catalog` lists the menu-item primary keys. -/
def validateItems (catalog : List String) (items : List InputItem) :
    Except ErrResp Unit :=
  let itemIds := (items.map (fun it => it.item_id)).reduceOption
  if itemIds.length ≠ items.length then
    .error ⟨400, "All items must have valid item IDs"⟩
  else if (catalog.filter (fun c => c ∈ itemIds)).length ≠ itemIds.length then
    .error ⟨400, "One or more items are invalid"⟩
  else
    .ok ()

/-- `PATCH /api/orders/:id/pay` (src/index.js:870-902).  The handler
validates `payment_type`, checks that the order row exists (selecting only
`id`, never `status`), and then unconditionally updates
`{status: 'paid', payment_type}`.  `ord` is the looked-up row (`none` when
the id resolves to no order); the returned `.ok` value is the row as written
back by the update. -/
def markPaid (ord : Option Order) (payment_type : Option String) :
    Except ErrResp Order :=
  match payment_type with
  | none => .error ⟨400, "Valid payment type is required (UPI, Cash, Bank, Card)"⟩
  | some pt =>
    if pt ∉ ["UPI", "Cash", "Bank", "Card"] then
      .error ⟨400, "Valid payment type is required (UPI, Cash, Bank, Card)"⟩
    else
      match ord with
      | none => .error ⟨404, "Order not found"⟩
      | some o => .ok { o with status := .paid, payment_type := some pt }

/-- `PATCH /api/orders/:id` (src/index.js:783-846).  Input check
(`!items || !Array.isArray(items)` — an empty array passes), then order
lookup, then the pending-status gate (src/index.js:804-807), then item
validation and the normalizing update.  `items = none` models a missing or
non-array `items` field; notes are written as `notes || null`. -/
def updateOrder (catalog : List String) (ord : Option Order)
    (items : Option (List InputItem)) (notes : Option String) :
    Except ErrResp Order :=
  match items with
  | none => .error ⟨400, "Non-empty items array is required"⟩
  | some its =>
    match ord with
    | none => .error ⟨404, "Order not found"⟩
    | some o =>
      if o.status ≠ .pending then
        .error ⟨400, "Can only update pending orders"⟩
      else
        match validateItems catalog its with
        | .error e => .error e
        | .ok _ => .ok { o with items := its.map normalizeItem, notes := notes }

/-- Café settings row (`cafe_settings` table): geofence centre and radius. -/
structure CafeSettings where
  latitude : ℝ
  longitude : ℝ
  geofence_radius_meters : ℝ

/-- JS `Math.atan2 y x` over the reals (quadrant-corrected arctangent). -/
noncomputable def atan2 (y x : ℝ) : ℝ :=
  if 0 < x then Real.arctan (y / x)
  else if x < 0 ∧ 0 ≤ y then Real.arctan (y / x) + Real.pi
  else if x < 0 ∧ y < 0 then Real.arctan (y / x) - Real.pi
  else if x = 0 ∧ 0 < y then Real.pi / 2
  else if x = 0 ∧ y < 0 then -(Real.pi / 2)
  else 0

/-- The intermediate value `a` of the haversine formula
(src/index.js:659-660): with `φ1 = lat1·π/180`, `φ2 = lat2·π/180`,
`Δφ = (lat2-lat1)·π/180` and `Δλ = (lon2-lon1)·π/180`, this is
`sin(Δφ/2)·sin(Δφ/2) + cos φ1 · cos φ2 · sin(Δλ/2)·sin(Δλ/2)`. -/
noncomputable def haversineA (lat1 lon1 lat2 lon2 : ℝ) : ℝ :=
  Real.sin ((lat2 - lat1) * Real.pi / 180 / 2) *
      Real.sin ((lat2 - lat1) * Real.pi / 180 / 2) +
    Real.cos (lat1 * Real.pi / 180) * Real.cos (lat2 * Real.pi / 180) *
      (Real.sin ((lon2 - lon1) * Real.pi / 180 / 2) *
        Real.sin ((lon2 - lon1) * Real.pi / 180 / 2))

/-- Haversine distance in metres (src/index.js:652-663): Earth radius
`R = 6371e3`, `c = 2·atan2(√a, √(1-a))`, distance `R·c`.  The source
computes with floating point; the embedding idealizes over the reals. -/
noncomputable def calculateDistance (lat1 lon1 lat2 lon2 : ℝ) : ℝ :=
  6371e3 *
    (2 * atan2 (Real.sqrt (haversineA lat1 lon1 lat2 lon2))
        (Real.sqrt (1 - haversineA lat1 lon1 lat2 lon2)))

open Classical in
/-- The geo admission guard inside `POST /api/orders` (src/index.js:709-731).
Waiter requests (`x-waiter-auth: true`) bypass it; otherwise a JS-falsy
latitude or longitude (missing, null, or the number 0) is rejected with 400
before the settings are even fetched; a missing settings row is a 500; and
finally `if (distance > geofence_radius_meters)` rejects with 403. -/
noncomputable def geoGate (settings : Option CafeSettings) (isWaiter : Bool)
    (lat lon : Option ℝ) : Except ErrResp Unit :=
  if isWaiter then .ok ()
  else
    match lat, lon with
    | none, _ => .error ⟨400, "Latitude and longitude are required for customer orders"⟩
    | _, none => .error ⟨400, "Latitude and longitude are required for customer orders"⟩
    | some la, some lo =>
      if la = 0 ∨ lo = 0 then
        .error ⟨400, "Latitude and longitude are required for customer orders"⟩
      else
        match settings with
        | none => .error ⟨500, "Cafe settings not configured"⟩
        | some s =>
          if calculateDistance la lo s.latitude s.longitude >
              s.geofence_radius_meters then
            .error ⟨403, "Orders can only be placed from within the cafe"⟩
          else .ok ()

/-- `POST /api/orders` (src/index.js:699-780).  Input shape check first
(`!table_id || !items || !Array.isArray(items)` — an empty items array is a
truthy array and passes), then the geo gate for non-waiter requests, then
the table lookup (`tableOk` is its outcome), then item validation, then the
insert of the normalized `validItems` with `status: 'pending'`. -/
noncomputable def createOrder (settings : Option CafeSettings) (tableOk : Bool)
    (catalog : List String) (isWaiter : Bool) (lat lon : Option ℝ)
    (table_id : Option String) (items : Option (List InputItem))
    (notes : Option String) : Except ErrResp Order :=
  match table_id, items with
  | none, _ => .error ⟨400, "Table ID and items array are required"⟩
  | _, none => .error ⟨400, "Table ID and items array are required"⟩
  | some tid, some its =>
    match geoGate settings isWaiter lat lon with
    | .error e => .error e
    | .ok _ =>
      if !tableOk then .error ⟨400, "Invalid table ID"⟩
      else
        match validateItems catalog its with
        | .error e => .error e
        | .ok _ =>
          .ok { table_id := tid, items := its.map normalizeItem,
                status := .pending, notes := notes, payment_type := none }

/-- The `POST /api/orders` variant of src/unnamed/part_001 (lines 48-79):
its input check is `!table_id || !Array.isArray(items) || items.length === 0`,
so an empty items array is rejected up front; it then validates only the
table and inserts the normalized items with `status: 'pending'` (it performs
no catalog check and takes no notes). -/
def createOrderP1 (tableOk : Bool) (table_id : Option String)
    (items : Option (List InputItem)) : Except ErrResp Order :=
  match table_id, items with
  | none, _ => .error ⟨400, "Table ID and non-empty items array are required"⟩
  | _, none => .error ⟨400, "Table ID and non-empty items array are required"⟩
  | some tid, some its =>
    if its.isEmpty then
      .error ⟨400, "Table ID and non-empty items array are required"⟩
    else if !tableOk then .error ⟨400, "Invalid table ID"⟩
    else
      .ok { table_id := tid, items := its.map normalizeItem,
            status := .pending, notes := none, payment_type := none }

/-- A stored line item as the analytics endpoints read it back; fields may
be missing on malformed records. -/
structure StoredLine where
  name : Option String
  price : Option ℚ
  quantity : Option ℤ
deriving DecidableEq, Repr

/-- An order row as read by the revenue/items-sold aggregations (only
`items` is selected); `items = none` models a malformed (non-array) field. -/
structure RevOrder where
  items : Option (List StoredLine)
deriving DecidableEq, Repr

/-- JS `item.quantity || 1`: missing, non-numeric or zero becomes 1. -/
def jsQty : Option ℤ → ℤ
  | none => 1
  | some q => if q = 0 then 1 else q

/-- One line's contribution `(item.price || 0) * (item.quantity || 1)`
(src/index.js:1074). -/
def lineRevenue (l : StoredLine) : ℚ :=
  l.price.getD 0 * (jsQty l.quantity : ℚ)

/-- `GET /api/admin/analytics/total-revenue` aggregation
(src/index.js:1069-1075): a reduce over the queried orders (already
filtered to `status = 'paid'` and the date range by the store query) that
skips any order whose `items` is not an array (`return sum`) and otherwise
adds the order's summed line revenue. -/
def totalRevenue (orders : List RevOrder) : ℚ :=
  orders.foldl
    (fun sum o =>
      match o.items with
      | none => sum
      | some ls => sum + ls.foldl (fun s it => s + lineRevenue it) 0)
    0

/-- Hour bucket of a timestamp: `new Date(created_at).getHours()` for a
server running at a fixed UTC offset of `off` minutes.  `t` is the
`created_at` instant in minutes since the epoch (UTC). -/
def hourOf (off t : Nat) : Nat := ((t + off) / 60) % 24

/-- The `ordersByHour` histogram of `GET /api/admin/analytics/peak-hours`
(src/index.js:1140-1145): orders with a falsy `created_at` are skipped,
every other order increments the bucket of its hour. -/
def ordersByHour (off : Nat) (orders : List (Option Nat)) (h : Nat) : Nat :=
  (orders.filterMap id).countP (fun t => hourOf off t = h)

/-- The argmax scan `ordersByHour.reduce((maxIdx, count, idx, arr) =>
count > arr[maxIdx] ? idx : maxIdx, 0)` (src/index.js:1147) over the first
`n` buckets. -/
def peakHourIndex (counts : Nat → Nat) (n : Nat) : Nat :=
  (List.range n).foldl
    (fun maxIdx idx => if counts maxIdx < counts idx then idx else maxIdx) 0

/-- `GET /api/admin/analytics/peak-hours` (src/index.js:1125-1155): the
label `` `${i}:00-${i+1}:00` `` of the first hour index with the highest
count, or `"N/A"` when that bucket is empty (i.e. no order was counted). -/
def peakHours (off : Nat) (orders : List (Option Nat)) : String :=
  let i := peakHourIndex (ordersByHour off orders) 24
  if 0 < ordersByHour off orders i then s!"{i}:00-{i + 1}:00" else "N/A"

/-! Lifecycle theorems. -/

/-- C1: the claim says a second `markPaid` on an already-`paid` order fails
with `InvalidTransition` and leaves `payment_type` unchanged.  The handler
(src/index.js:870-902) never reads the order's status: on an order already
paid with `Cash`, a second call with `UPI` succeeds and overwrites the
stored `payment_type`, so the code contradicts the immutability the spec
states (the spec itself flags this re-application as a latent bug). -/
theorem markPaid_repay_overwrites_payment :
    markPaid (some ⟨"t1", [⟨"tea", "Tea", 3, 1, "", ""⟩], .paid, none, some "Cash"⟩)
        (some "UPI") =
      .ok ⟨"t1", [⟨"tea", "Tea", 3, 1, "", ""⟩], .paid, none, some "UPI"⟩ ∧
    some "Cash" ≠ some "UPI" := by
  constructor
  · rfl
  · decide

/-- C2 (counterexample): the claim says update on a paid order fails with
`InvalidTransition` for every payload, but a payload whose `items` is
missing fails the input-shape check first (src/index.js:788-791) with the
`BadRequest` message, not the pending-status message. -/
theorem update_paid_missing_items_is_bad_request :
    updateOrder [] (some ⟨"t1", [⟨"tea", "Tea", 3, 1, "", ""⟩], .paid, none, some "Cash"⟩)
        none none =
      .error ⟨400, "Non-empty items array is required"⟩ ∧
    (⟨400, "Non-empty items array is required"⟩ : ErrResp) ≠
      ⟨400, "Can only update pending orders"⟩ := by
  constructor
  · rfl
  · decide

/-- C2 (amended): for every payload that carries an items array, `update`
on an existing paid order fails with the `InvalidTransition` rejection
`"Can only update pending orders"` (src/index.js:804-807); the handler
returns before any store write, so the order's items and notes are
unchanged (an update is only issued on the `.ok` path). -/
theorem update_paid_fails_invalid_transition :
    ∀ (catalog : List String) (o : Order) (its : List InputItem)
      (notes : Option String), o.status = .paid →
      updateOrder catalog (some o) (some its) notes =
        .error ⟨400, "Can only update pending orders"⟩ := by
  intro catalog o its notes h
  simp [updateOrder, h]

/-- C2 witness: the amended theorem applied to a concrete paid order and a
concrete payload. -/
theorem update_paid_fails_invalid_transition_witness :
    updateOrder ["tea"] (some ⟨"t1", [⟨"tea", "Tea", 3, 1, "", ""⟩], .paid, none, some "Cash"⟩)
        (some [⟨some "tea", none, none, none, none, none⟩]) none =
      .error ⟨400, "Can only update pending orders"⟩ :=
  update_paid_fails_invalid_transition ["tea"]
    ⟨"t1", [⟨"tea", "Tea", 3, 1, "", ""⟩], .paid, none, some "Cash"⟩
    [⟨some "tea", none, none, none, none, none⟩] none rfl

/-- C4 (counterexample): the claim says no request with an empty items
array ever results in a persisted order, but the main create handler's
input check (src/index.js:703-706) only rejects a missing or non-array
`items` — an empty array is a truthy array, passes every check vacuously,
and is persisted as an order with no items. -/
theorem create_empty_items_persisted :
    createOrder none true [] true none none (some "t1") (some []) none =
      .ok ⟨"t1", [], .pending, none, none⟩ := by
  rfl

/-- C4 (amended): the non-empty-items invariant holds only in the
src/unnamed/part_001 create variant, whose input check rejects
`items.length === 0`; every order it admits has non-empty items.  The main
src/index.js create rejects only a missing/non-array `items` field. -/
theorem create_items_nonempty_variants :
    (∀ (tableOk : Bool) (tid : Option String) (items : Option (List InputItem))
        (o : Order), createOrderP1 tableOk tid items = .ok o → o.items ≠ []) ∧
    (∀ (settings : Option CafeSettings) (tableOk : Bool) (catalog : List String)
        (isWaiter : Bool) (lat lon : Option ℝ) (tid : Option String)
        (notes : Option String),
        createOrder settings tableOk catalog isWaiter lat lon tid none notes =
          .error ⟨400, "Table ID and items array are required"⟩) := by
  constructor
  · intro tableOk tid items o h
    cases tid with
    | none => simp [createOrderP1] at h
    | some tid =>
      cases items with
      | none => simp [createOrderP1] at h
      | some its =>
        cases its with
        | nil => simp [createOrderP1] at h
        | cons a ts =>
          cases tableOk with
          | false => simp [createOrderP1] at h
          | true =>
            simp only [createOrderP1, List.isEmpty_cons, Bool.false_eq_true,
              if_false, Bool.not_true, Except.ok.injEq] at h
            rw [← h]
            simp
  · intro settings tableOk catalog isWaiter lat lon tid notes
    cases tid <;> rfl

/-- C4 witness: the part_001 variant guarantee applied to a concrete
one-item request. -/
theorem create_items_nonempty_variants_witness :
    Order.items ⟨"t1", [⟨"tea", "Unknown", 0, 1, "", ""⟩], .pending, none, none⟩ ≠ [] :=
  create_items_nonempty_variants.1 true (some "t1")
    (some [⟨some "tea", none, none, none, none, none⟩]) _ rfl

/-- C3 (counterexample): the claim says every admitted create produces
lines with positive quantity and non-negative price, but the normalization
(src/index.js:759-766) trusts the client: `parseFloat(item.price) || 0` and
`parseInt(item.quantity) || 1` pass negative supplied values through.  A
request whose item exists in the catalog but carries price -5 and quantity
-2 is admitted and persisted with that negative line. -/
theorem create_admits_negative_price_and_quantity :
    createOrder none true ["burger"] true none none (some "t1")
        (some [⟨some "burger", none, some (-5), some (-2), none, none⟩]) none =
      .ok ⟨"t1", [⟨"burger", "Unknown", -5, -2, "", ""⟩], .pending, none, none⟩ ∧
    ((-5 : ℚ) < 0 ∧ (-2 : ℤ) < 0) := by
  refine ⟨rfl, by norm_num, by norm_num⟩

/-- C3 (amended): every admitted create produces an order with
`status = pending` whose items are the normalized input items; positive
quantity and non-negative price additionally hold whenever the
client-supplied price is non-negative and the client-supplied quantity is
positive wherever present (missing price defaults to 0, missing or zero
quantity to 1). -/
theorem create_pending_normalized :
    ∀ (settings : Option CafeSettings) (tableOk : Bool) (catalog : List String)
      (isWaiter : Bool) (lat lon : Option ℝ) (tid : Option String)
      (its : List InputItem) (notes : Option String) (o : Order),
      createOrder settings tableOk catalog isWaiter lat lon tid (some its) notes =
        .ok o →
      o.status = .pending ∧ o.items = its.map normalizeItem ∧
      ((∀ it ∈ its, (∀ p, it.price = some p → 0 ≤ p) ∧
          (∀ q, it.quantity = some q → 0 < q)) →
        ∀ l ∈ o.items, 0 < l.quantity ∧ 0 ≤ l.price) := by
  intro settings tableOk catalog isWaiter lat lon tid its notes o h
  cases tid with
  | none => simp [createOrder] at h
  | some tid =>
    simp only [createOrder] at h
    cases hg : geoGate settings isWaiter lat lon with
    | error e => rw [hg] at h; simp at h
    | ok u =>
      rw [hg] at h
      cases tableOk with
      | false => simp at h
      | true =>
        simp only [Bool.not_true, Bool.false_eq_true, if_false] at h
        cases hv : validateItems catalog its with
        | error e => rw [hv] at h; simp at h
        | ok u =>
          rw [hv] at h
          simp only [Except.ok.injEq] at h
          subst h
          refine ⟨rfl, rfl, ?_⟩
          intro hgood l hl
          simp only [List.mem_map] at hl
          obtain ⟨it, hit, rfl⟩ := hl
          obtain ⟨hp, hq⟩ := hgood it hit
          constructor
          · show (0 : ℤ) < (normalizeItem it).quantity
            simp only [normalizeItem]
            cases hqv : it.quantity with
            | none => norm_num
            | some q =>
              by_cases hz : q = 0
              · simp [hz]
              · simp only [hz, if_false]
                exact hq q hqv
          · show (0 : ℚ) ≤ (normalizeItem it).price
            simp only [normalizeItem]
            cases hpv : it.price with
            | none => norm_num [Option.getD]
            | some p =>
              simp only [Option.getD_some]
              exact hp p hpv

/-- C3 witness: the amended theorem applied to a concrete well-priced
request admitted through the waiter path. -/
theorem create_pending_normalized_witness :
    Order.status ⟨"t1", [⟨"tea", "Tea", 3, 2, "", ""⟩], .pending, none, none⟩ = .pending ∧
    ∀ l ∈ Order.items ⟨"t1", [⟨"tea", "Tea", 3, 2, "", ""⟩], .pending, none, none⟩,
      0 < l.quantity ∧ 0 ≤ l.price := by
  have h := create_pending_normalized none true ["tea"] true none none (some "t1")
    [⟨some "tea", some "Tea", some 3, some 2, none, none⟩] none
    ⟨"t1", [⟨"tea", "Tea", 3, 2, "", ""⟩], .pending, none, none⟩ rfl
  refine ⟨h.1, h.2.2 ?_⟩
  intro it hit
  simp only [List.mem_singleton] at hit
  subst hit
  constructor
  · intro p hp
    injection hp with hp
    rw [← hp]; norm_num
  · intro q hq
    injection hq with hq
    rw [← hq]; norm_num

/-! Geofence helpers and theorems. -/

theorem haversineA_symm (a b c d : ℝ) : haversineA a b c d = haversineA c d a b := by
  unfold haversineA
  have h1 : (a - c) * Real.pi / 180 / 2 = -((c - a) * Real.pi / 180 / 2) := by ring
  have h2 : (b - d) * Real.pi / 180 / 2 = -((d - b) * Real.pi / 180 / 2) := by ring
  rw [h1, h2]
  simp only [Real.sin_neg]
  ring

theorem haversineA_self (a b : ℝ) : haversineA a b a b = 0 := by
  unfold haversineA
  simp [sub_self]

theorem calculateDistance_self (a b : ℝ) : calculateDistance a b a b = 0 := by
  unfold calculateDistance
  rw [haversineA_self]
  norm_num [atan2, Real.arctan_zero]

theorem calculateDistance_symm_pointwise (a b c d : ℝ) :
    calculateDistance a b c d = calculateDistance c d a b := by
  unfold calculateDistance
  rw [haversineA_symm]

theorem geoGate_inside (s : CafeSettings) (la lo : ℝ) (hla : la ≠ 0)
    (hlo : lo ≠ 0)
    (h : ¬ calculateDistance la lo s.latitude s.longitude >
        s.geofence_radius_meters) :
    geoGate (some s) false (some la) (some lo) = .ok () := by
  simp [geoGate, hla, hlo, h]

theorem geoGate_outside (s : CafeSettings) (la lo : ℝ) (hla : la ≠ 0)
    (hlo : lo ≠ 0)
    (h : calculateDistance la lo s.latitude s.longitude >
        s.geofence_radius_meters) :
    geoGate (some s) false (some la) (some lo) =
      .error ⟨403, "Orders can only be placed from within the cafe"⟩ := by
  simp [geoGate, hla, hlo, h]

/-- C9: the haversine distance of src/index.js:652-663 is symmetric in its
two coordinate pairs, and the distance from any point to itself is 0. -/
theorem calculateDistance_symm_self :
    (∀ a b c d : ℝ, calculateDistance a b c d = calculateDistance c d a b) ∧
    (∀ a b : ℝ, calculateDistance a b a b = 0) :=
  ⟨calculateDistance_symm_pointwise, calculateDistance_self⟩

/-- C5 (counterexample): the claim says the café's exact coordinates are
always admitted regardless of the configured radius, but the guard compares
`distance > geofence_radius_meters` with the raw stored radius: with radius
-1 the café's own coordinates (distance 0) are rejected with 403. -/
theorem geofence_center_rejected_at_negative_radius :
    geoGate (some ⟨1, 1, -1⟩) false (some 1) (some 1) =
      .error ⟨403, "Orders can only be placed from within the cafe"⟩ := by
  apply geoGate_outside _ _ _ one_ne_zero one_ne_zero
  show calculateDistance 1 1 1 1 > -1
  rw [calculateDistance_self]
  norm_num

/-- C5 (amended): for a non-waiter request with nonzero numeric
coordinates, admission is granted iff the haversine distance to the café is
at most `geofence_radius_meters`; the café's exact coordinates (when
themselves nonzero) are admitted whenever the radius is non-negative; and a
point at exactly twice the radius is rejected whenever the radius is
positive. -/
theorem geofence_admission_spec :
    (∀ (s : CafeSettings) (la lo : ℝ), la ≠ 0 → lo ≠ 0 →
      (geoGate (some s) false (some la) (some lo) = .ok () ↔
        calculateDistance la lo s.latitude s.longitude ≤
          s.geofence_radius_meters)) ∧
    (∀ s : CafeSettings, s.latitude ≠ 0 → s.longitude ≠ 0 →
      0 ≤ s.geofence_radius_meters →
      geoGate (some s) false (some s.latitude) (some s.longitude) = .ok ()) ∧
    (∀ (s : CafeSettings) (la lo : ℝ), la ≠ 0 → lo ≠ 0 →
      0 < s.geofence_radius_meters →
      calculateDistance la lo s.latitude s.longitude =
        2 * s.geofence_radius_meters →
      geoGate (some s) false (some la) (some lo) =
        .error ⟨403, "Orders can only be placed from within the cafe"⟩) := by
  refine ⟨?_, ?_, ?_⟩
  · intro s la lo hla hlo
    by_cases h : calculateDistance la lo s.latitude s.longitude >
        s.geofence_radius_meters
    · rw [geoGate_outside s la lo hla hlo h]
      constructor
      · intro hc; exact absurd hc (by simp)
      · intro hle; exact absurd h (not_lt.mpr hle)
    · rw [geoGate_inside s la lo hla hlo h]
      exact iff_of_true rfl (not_lt.mp h)
  · intro s h1 h2 hr
    apply geoGate_inside s _ _ h1 h2
    rw [calculateDistance_self]
    exact not_lt.mpr hr
  · intro s la lo hla hlo hr hd
    apply geoGate_outside s la lo hla hlo
    rw [hd]
    linarith

/-- Evaluation of the haversine distance between the poles along the
meridian 45, used to exhibit a concrete point at twice a positive radius. -/
theorem calculateDistance_poles_eval :
    calculateDistance 90 45 (-90) 45 = 6371e3 * Real.pi := by
  have ha : haversineA 90 45 (-90) 45 = 1 := by
    unfold haversineA
    have h1 : ((-90 : ℝ) - 90) * Real.pi / 180 / 2 = -(Real.pi / 2) := by ring
    have h2 : (90 : ℝ) * Real.pi / 180 = Real.pi / 2 := by ring
    have h3 : ((45 : ℝ) - 45) * Real.pi / 180 / 2 = 0 := by ring
    rw [h1, h2, h3]
    simp [Real.sin_neg, Real.sin_pi_div_two, Real.cos_pi_div_two, Real.sin_zero]
  unfold calculateDistance
  rw [ha]
  norm_num [Real.sqrt_one, Real.sqrt_zero, atan2]
  ring

/-- C5 witness: the amended theorem at concrete inputs — the café's own
(nonzero) coordinates with radius 5 are admitted, and a point whose
distance is exactly twice a positive radius is rejected. -/
theorem geofence_admission_spec_witness :
    geoGate (some ⟨1, 1, 5⟩) false (some 1) (some 1) = .ok () ∧
    geoGate (some ⟨-90, 45, 6371e3 * Real.pi / 2⟩) false (some 90) (some 45) =
      .error ⟨403, "Orders can only be placed from within the cafe"⟩ := by
  constructor
  · exact geofence_admission_spec.2.1 ⟨1, 1, 5⟩ one_ne_zero one_ne_zero
      (by norm_num)
  · apply geofence_admission_spec.2.2 ⟨-90, 45, 6371e3 * Real.pi / 2⟩ 90 45
      (by norm_num) (by norm_num)
    · show (0 : ℝ) < 6371e3 * Real.pi / 2
      positivity
    · show calculateDistance 90 45 (-90) 45 = 2 * (6371e3 * Real.pi / 2)
      rw [calculateDistance_poles_eval]
      ring

/-- C10: a non-waiter create request whose latitude or longitude is the
number 0 fails the JS-falsy presence check `!latitude || !longitude`
(src/index.js:710-714) and is rejected with the missing-coordinates
BadRequest; the conclusion holds for every settings value, including a
missing settings row, so the distance check is never reached. -/
theorem zero_coordinate_rejected :
    ∀ (settings : Option CafeSettings) (lat lon : Option ℝ),
      lat = some 0 ∨ lon = some 0 →
      geoGate settings false lat lon =
        .error ⟨400, "Latitude and longitude are required for customer orders"⟩ := by
  intro settings lat lon h
  rcases h with h | h
  · subst h
    cases lon with
    | none => rfl
    | some lo => simp [geoGate]
  · subst h
    cases lat with
    | none => rfl
    | some la => simp [geoGate]

/-- C10 witness: a concrete equator coordinate (latitude 0) with a missing
settings row is rejected as missing coordinates. -/
theorem zero_coordinate_rejected_witness :
    geoGate none false (some 0) (some 1) =
      .error ⟨400, "Latitude and longitude are required for customer orders"⟩ :=
  zero_coordinate_rejected none (some 0) (some 1) (Or.inl rfl)

/-! Item-validation theorems. -/

theorem validateItems_ok_of (catalog : List String) (items : List InputItem)
    (h1 : ((items.map (fun it => it.item_id)).reduceOption).length = items.length)
    (h2 : (catalog.filter
        (fun c => c ∈ (items.map (fun it => it.item_id)).reduceOption)).length =
      ((items.map (fun it => it.item_id)).reduceOption).length) :
    validateItems catalog items = .ok () := by
  simp only [validateItems]
  rw [if_neg (not_not_intro h1), if_neg (not_not_intro h2)]

theorem validateItems_err_missing_id (catalog : List String)
    (items : List InputItem)
    (h1 : ((items.map (fun it => it.item_id)).reduceOption).length ≠ items.length) :
    validateItems catalog items =
      .error ⟨400, "All items must have valid item IDs"⟩ := by
  simp only [validateItems]
  rw [if_pos h1]

theorem validateItems_err_unresolved (catalog : List String)
    (items : List InputItem)
    (h1 : ((items.map (fun it => it.item_id)).reduceOption).length = items.length)
    (h2 : (catalog.filter
        (fun c => c ∈ (items.map (fun it => it.item_id)).reduceOption)).length ≠
      ((items.map (fun it => it.item_id)).reduceOption).length) :
    validateItems catalog items =
      .error ⟨400, "One or more items are invalid"⟩ := by
  simp only [validateItems]
  rw [if_neg (not_not_intro h1), if_pos h2]

theorem ids_length_eq_iff (items : List InputItem) :
    ((items.map (fun it => it.item_id)).reduceOption).length = items.length ↔
      ∀ it ∈ items, it.item_id.isSome := by
  rw [← List.length_map items (fun it => it.item_id),
    List.reduceOption_length_eq_iff]
  constructor
  · intro h it hit
    exact h _ (List.mem_map_of_mem _ hit)
  · intro h x hx
    obtain ⟨it, hit, rfl⟩ := List.mem_map.mp hx
    exact h it hit

/-- C8: item validation (src/index.js:744-757) succeeds exactly when every
requested item carries an `item_id` and the number of catalog rows resolved
for the collected ids equals the number of requested items; in every other
case it fails with one of the two 400 rejections of the items step (the
spec's `InvalidReference("items")`). -/
theorem validateItems_iff :
    ∀ (catalog : List String) (items : List InputItem),
      (validateItems catalog items = .ok () ↔
        (∀ it ∈ items, it.item_id.isSome) ∧
        (catalog.filter
            (fun c => c ∈ (items.map (fun it => it.item_id)).reduceOption)).length =
          items.length) ∧
      (validateItems catalog items ≠ .ok () →
        validateItems catalog items =
            .error ⟨400, "All items must have valid item IDs"⟩ ∨
          validateItems catalog items =
            .error ⟨400, "One or more items are invalid"⟩) := by
  intro catalog items
  by_cases h1 : ((items.map (fun it => it.item_id)).reduceOption).length =
      items.length
  · by_cases h2 : (catalog.filter
        (fun c => c ∈ (items.map (fun it => it.item_id)).reduceOption)).length =
      items.length
    · have hok := validateItems_ok_of catalog items h1 (by rw [h1]; exact h2)
      refine ⟨?_, fun hne => absurd hok hne⟩
      rw [hok]
      exact iff_of_true rfl ⟨(ids_length_eq_iff items).mp h1, h2⟩
    · have herr := validateItems_err_unresolved catalog items h1
        (by rw [h1]; exact h2)
      refine ⟨?_, fun _ => Or.inr herr⟩
      rw [herr]
      refine iff_of_false (by simp) ?_
      rintro ⟨-, hlen⟩
      exact h2 hlen
  · have herr := validateItems_err_missing_id catalog items h1
    refine ⟨?_, fun _ => Or.inl herr⟩
    rw [herr]
    refine iff_of_false (by simp) ?_
    rintro ⟨hall, -⟩
    exact h1 ((ids_length_eq_iff items).mpr hall)

/-- C8 witness: the success side at a resolvable two-item request and the
failure side at a request with a missing id, both through the theorem. -/
theorem validateItems_iff_witness :
    validateItems ["a", "b"] [⟨some "a", none, none, none, none, none⟩] = .ok () ∧
    (validateItems ["a", "b"] [⟨none, none, none, none, none, none⟩] =
        .error ⟨400, "All items must have valid item IDs"⟩ ∨
      validateItems ["a", "b"] [⟨none, none, none, none, none, none⟩] =
        .error ⟨400, "One or more items are invalid"⟩) := by
  constructor
  · exact (validateItems_iff ["a", "b"] [⟨some "a", none, none, none, none, none⟩]).1.mpr
      (by constructor
          · decide
          · decide)
  · refine (validateItems_iff ["a", "b"] [⟨none, none, none, none, none, none⟩]).2 ?_
    rw [validateItems_err_missing_id ["a", "b"]
      [⟨none, none, none, none, none, none⟩] (by decide)]
    simp

/-! Analytics theorems: total revenue. -/

theorem foldl_add_lineRevenue (ls : List StoredLine) (a : ℚ) :
    ls.foldl (fun s it => s + lineRevenue it) a = a + (ls.map lineRevenue).sum := by
  induction ls generalizing a with
  | nil => simp
  | cons x t ih => simp [ih, add_assoc]

theorem totalRevenue_eq_sum (orders : List RevOrder) :
    totalRevenue orders =
      ((orders.filterMap RevOrder.items).map
          (fun ls => (ls.map lineRevenue).sum)).sum := by
  suffices h : ∀ (os : List RevOrder) (a : ℚ),
      os.foldl
          (fun sum o =>
            match o.items with
            | none => sum
            | some ls => sum + ls.foldl (fun s it => s + lineRevenue it) 0)
          a =
        a + ((os.filterMap RevOrder.items).map
            (fun ls => (ls.map lineRevenue).sum)).sum by
    simpa [totalRevenue] using h orders 0
  intro os
  induction os with
  | nil => intro a; simp
  | cons o t ih =>
    intro a
    cases ho : o.items with
    | none =>
      rw [List.foldl_cons, List.filterMap_cons_none ho]
      simpa [ho] using ih a
    | some ls =>
      rw [List.foldl_cons, List.filterMap_cons_some ho]
      simp only [ho, List.map_cons, List.sum_cons]
      rw [ih, foldl_add_lineRevenue]
      ring

/-- C7: the guarded total-revenue aggregation (src/index.js:1069-1075)
equals the sum, over exactly the matching orders whose `items` field is a
list, of the order's summed `price × quantity` (with the source's
`price || 0` and `quantity || 1` defaults); a malformed (non-list) record
contributes 0 — removing it leaves the total unchanged — and the fold is a
total function, so the endpoint still returns a total. -/
theorem totalRevenue_spec :
    (∀ orders : List RevOrder,
      totalRevenue orders =
        ((orders.filterMap RevOrder.items).map
            (fun ls => (ls.map lineRevenue).sum)).sum) ∧
    (∀ (pre post : List RevOrder) (o : RevOrder), o.items = none →
      totalRevenue (pre ++ o :: post) = totalRevenue (pre ++ post)) := by
  refine ⟨totalRevenue_eq_sum, ?_⟩
  intro pre post o ho
  rw [totalRevenue_eq_sum, totalRevenue_eq_sum, List.filterMap_append,
    List.filterMap_append, List.filterMap_cons_none ho]

/-- C7 witness: dropping a concrete malformed record from a concrete order
set leaves the computed revenue unchanged, and that revenue evaluates to
the expected 25. -/
theorem totalRevenue_spec_witness :
    totalRevenue
        [⟨none⟩, ⟨some [⟨some "x", some 10, some 2⟩, ⟨some "y", some 5, some 1⟩]⟩] =
      totalRevenue [⟨some [⟨some "x", some 10, some 2⟩, ⟨some "y", some 5, some 1⟩]⟩] ∧
    totalRevenue [⟨some [⟨some "x", some 10, some 2⟩, ⟨some "y", some 5, some 1⟩]⟩] = 25 := by
  constructor
  · exact totalRevenue_spec.2 []
      [⟨some [⟨some "x", some 10, some 2⟩, ⟨some "y", some 5, some 1⟩]⟩] ⟨none⟩ rfl
  · norm_num [totalRevenue, lineRevenue, jsQty]

/-! Analytics theorems: peak hours. -/

theorem hourOf_lt (off t : Nat) : hourOf off t < 24 :=
  Nat.mod_lt _ (by norm_num)

theorem ordersByHour_of_ge (off : Nat) (orders : List (Option Nat)) (h : Nat)
    (hh : 24 ≤ h) : ordersByHour off orders h = 0 := by
  unfold ordersByHour
  rw [List.countP_eq_zero]
  intro t _
  simp only [decide_eq_true_eq]
  intro heq
  have := hourOf_lt off t
  omega

theorem peakHourIndex_succ (counts : Nat → Nat) (n : Nat) :
    peakHourIndex counts (n + 1) =
      if counts (peakHourIndex counts n) < counts n then n
      else peakHourIndex counts n := by
  unfold peakHourIndex
  rw [List.range_succ, List.foldl_append, List.foldl_cons, List.foldl_nil]

theorem peakHourIndex_spec (counts : Nat → Nat) :
    ∀ n : Nat,
      (∀ j, j < n → counts j ≤ counts (peakHourIndex counts n)) ∧
      (∀ j, j < peakHourIndex counts n →
        counts j < counts (peakHourIndex counts n)) ∧
      (peakHourIndex counts n = 0 ∨ peakHourIndex counts n < n) := by
  intro n
  induction n with
  | zero =>
    refine ⟨fun j hj => absurd hj (Nat.not_lt_zero j), ?_, Or.inl rfl⟩
    intro j hj
    have h0 : peakHourIndex counts 0 = 0 := rfl
    rw [h0] at hj
    exact absurd hj (Nat.not_lt_zero j)
  | succ n ih =>
    obtain ⟨hmax, hfirst, hlt⟩ := ih
    rw [peakHourIndex_succ]
    by_cases hc : counts (peakHourIndex counts n) < counts n
    · rw [if_pos hc]
      refine ⟨?_, ?_, Or.inr (Nat.lt_succ_self n)⟩
      · intro j hj
        rcases Nat.lt_succ_iff_lt_or_eq.mp hj with hj' | rfl
        · exact le_of_lt (lt_of_le_of_lt (hmax j hj') hc)
        · exact le_refl _
      · intro j hj
        exact lt_of_le_of_lt (hmax j hj) hc
    · rw [if_neg hc]
      push_neg at hc
      refine ⟨?_, hfirst, ?_⟩
      · intro j hj
        rcases Nat.lt_succ_iff_lt_or_eq.mp hj with hj' | rfl
        · exact hmax j hj'
        · exact hc
      · rcases hlt with h0 | h
        · exact Or.inl h0
        · exact Or.inr (Nat.lt_succ_of_lt h)

/-- C6: the peak-hours aggregation (src/index.js:1140-1148) buckets every
matching order with a present `created_at` into one of the 24 hour buckets
of the server's fixed UTC offset (`off`, in minutes — the embedding of
`new Date(created_at).getHours()` on a fixed-offset deployment), reports
`"N/A"` when all buckets are empty, and otherwise labels the first hour
index reaching the maximum count as `"HH:00-HH+1:00"`. -/
theorem peakHours_spec :
    ∀ (off : Nat) (orders : List (Option Nat)),
      (∀ t, hourOf off t < 24) ∧
      (∀ h : Nat, ordersByHour off orders h =
        ((orders.filterMap id).filter (fun t => hourOf off t = h)).length) ∧
      ((∀ h, ordersByHour off orders h = 0) → peakHours off orders = "N/A") ∧
      (∀ h0, 0 < ordersByHour off orders h0 →
        peakHours off orders =
          (let i := peakHourIndex (ordersByHour off orders) 24;
            s!"{i}:00-{i + 1}:00") ∧
        peakHourIndex (ordersByHour off orders) 24 < 24 ∧
        (∀ j, ordersByHour off orders j ≤
          ordersByHour off orders (peakHourIndex (ordersByHour off orders) 24)) ∧
        (∀ j, j < peakHourIndex (ordersByHour off orders) 24 →
          ordersByHour off orders j <
            ordersByHour off orders (peakHourIndex (ordersByHour off orders) 24))) := by
  intro off orders
  obtain ⟨hmax, hfirst, hlt⟩ := peakHourIndex_spec (ordersByHour off orders) 24
  have hi24 : peakHourIndex (ordersByHour off orders) 24 < 24 := by
    rcases hlt with h0 | h
    · rw [h0]; norm_num
    · exact h
  have hmax' : ∀ j, ordersByHour off orders j ≤
      ordersByHour off orders (peakHourIndex (ordersByHour off orders) 24) := by
    intro j
    by_cases hj : j < 24
    · exact hmax j hj
    · rw [ordersByHour_of_ge off orders j (le_of_not_lt hj)]
      exact Nat.zero_le _
  refine ⟨fun t => hourOf_lt off t, ?_, ?_, ?_⟩
  · intro h
    unfold ordersByHour
    rw [List.countP_eq_length_filter]
  · intro hall
    have hz := hall (peakHourIndex (ordersByHour off orders) 24)
    simp [peakHours, hz]
  · intro h0 hh0
    have hpos : 0 < ordersByHour off orders
        (peakHourIndex (ordersByHour off orders) 24) :=
      lt_of_lt_of_le hh0 (hmax' h0)
    refine ⟨?_, hi24, hmax', hfirst⟩
    simp [peakHours, hpos]

set_option maxRecDepth 10000 in
/-- C6 witness: with offset 0 and the timestamps 60, 60 and 0 minutes, two
orders land in bucket 1 and one in bucket 0, so the theorem yields the
label of the first maximal bucket, which evaluates to `"1:00-2:00"`. -/
theorem peakHours_spec_witness :
    peakHours 0 [some 60, some 60, some 0] = "1:00-2:00" ∧
    ∀ j, ordersByHour 0 [some 60, some 60, some 0] j ≤
      ordersByHour 0 [some 60, some 60, some 0] 1 := by
  have h := (peakHours_spec 0 [some 60, some 60, some 0]).2.2.2 1 (by decide)
  have hi : peakHourIndex (ordersByHour 0 [some 60, some 60, some 0]) 24 = 1 := by
    decide
  obtain ⟨h1, -, h3, -⟩ := h
  constructor
  · rw [h1]
    simp only [hi]
    rfl
  · intro j
    have := h3 j
    rwa [hi] at this

end Valtri
